import Mathlib

/-!
Verification of the point-cloud conversion tool (`src/Tools/ConvertPointCloud.cpp`).

The tool's `convert` function loads a cloud, then applies four optional stages in a
fixed order (clip, voxel-downsample, estimate-normals, orient-normals), tracks a
`processed` flag, optionally prints one informational line, and writes the result.
`main` dispatches on whether the input path is a file, a directory, or missing.

Embedding choices:
* `double` values are embedded as exact rationals (`ℚ`);
  `std::numeric_limits<double>::lowest() / ::max()` become the exact rational values
  of those doubles (`doubleLowest` / `doubleMax`).
* The geometry collaborators called by `convert` (`CropPointCloud`, `VoxelDownSample`,
  the two `EstimateNormals` overloads) live in the repository's Core library, outside
  the sources given here; `convert` is therefore parameterised over a record `Geom`
  of those functions, and the parts of their behaviour the spec relies on are given
  as separate definitions marked "Modelled from the spec".
* Command-line option parsing (`GetProgramOptionAsDouble` etc.) is a collaborator;
  a `CmdOptions` record holds the already-parsed optional values, with
  `Option.getD` playing the role of the parser's default argument.
* Printing is modelled by returning the printed data (`info` field, `helpPrinted`,
  `errorPrinted`) instead of performing I/O.
-/

namespace ConvertPC

/-- 3D vector with exact rational coordinates, standing in for `Eigen::Vector3d`. -/
structure Vec3 where
  x : ℚ
  y : ℚ
  z : ℚ
deriving DecidableEq, Repr

/-- Dot product, as in `Eigen`: `normal.dot(dir)`. -/
def Vec3.dot (a b : Vec3) : ℚ :=
  a.x * b.x + a.y * b.y + a.z * b.z

/-- Negation, as in the source's `normal *= -1.0`. -/
def Vec3.negate (a : Vec3) : Vec3 :=
  ⟨-a.x, -a.y, -a.z⟩

/-- Point cloud: parallel sequences of points, normals and colors
(`points_`, `normals_`, `colors_` of the Core `PointCloud`). -/
structure PointCloud where
  points : List Vec3
  normals : List Vec3
  colors : List Vec3
deriving DecidableEq, Repr

/-- Modelled from the spec: `PointCloud::HasNormals` is Core-library code not under
the given sources; per the spec's data model the normals are an "optionally-present
parallel ordered sequence", so a cloud has normals exactly when that sequence is
nonempty. -/
def PointCloud.hasNormals (pc : PointCloud) : Bool :=
  !pc.normals.isEmpty

/-- Exact rational value of `std::numeric_limits<double>::max()`. -/
def doubleMax : ℚ :=
  (2 ^ 53 - 1) * 2 ^ 971

/-- Exact rational value of `std::numeric_limits<double>::lowest()`. -/
def doubleLowest : ℚ :=
  -doubleMax

/-- Parsed command-line options of the tool, one field per named option read by
`convert`. A `none` means the option was not supplied on the command line
(`Option.getD` then plays the role of `GetProgramOptionAsDouble`'s default).
`orient_normals` holds the components parsed by `GetProgramOptionAsEigenVectorXd`,
which yields an empty vector when the option is absent or unparsable. -/
structure CmdOptions where
  clip_x_min : Option ℚ
  clip_x_max : Option ℚ
  clip_y_min : Option ℚ
  clip_y_max : Option ℚ
  clip_z_min : Option ℚ
  clip_z_max : Option ℚ
  voxel_sample : Option ℚ
  estimate_normals : Option ℚ
  orient_normals : List ℚ
deriving Repr

/-- Transcription of the `ProgramOptionExistsAny` call guarding the clip stage:
true iff at least one of the six axis-bound options was supplied. -/
def clipOptionSupplied (o : CmdOptions) : Bool :=
  o.clip_x_min.isSome || o.clip_x_max.isSome || o.clip_y_min.isSome ||
    o.clip_y_max.isSome || o.clip_z_min.isSome || o.clip_z_max.isSome

/-- Resolved `min_bound` of the clip stage: each absent min-side option defaults to
`std::numeric_limits<double>::lowest()`, independently per axis. -/
def minBound (o : CmdOptions) : Vec3 :=
  ⟨o.clip_x_min.getD doubleLowest, o.clip_y_min.getD doubleLowest,
    o.clip_z_min.getD doubleLowest⟩

/-- Resolved `max_bound` of the clip stage: each absent max-side option defaults to
`std::numeric_limits<double>::max()`, independently per axis. -/
def maxBound (o : CmdOptions) : Vec3 :=
  ⟨o.clip_x_max.getD doubleMax, o.clip_y_max.getD doubleMax,
    o.clip_z_max.getD doubleMax⟩

/-- First three components of the `--orient_normals` vector, standing in for the
`Eigen::Vector3d dir(direction)` conversion (only used when the length is 3). -/
def dirOf (l : List ℚ) : Vec3 :=
  ⟨l.getD 0 0, l.getD 1 0, l.getD 2 0⟩

/-- Transcription of the orient-normals loop body: every normal whose dot product
with `dir` is negative is negated, the others are kept. -/
def orientNormalsList (dir : Vec3) (normals : List Vec3) : List Vec3 :=
  normals.map fun n => if n.dot dir < 0 then n.negate else n

/-- The orient-normals loop acting on a cloud: it rewrites `normals_` in place and
touches nothing else. -/
def orientNormalsStage (dir : Vec3) (pc : PointCloud) : PointCloud :=
  { pc with normals := orientNormalsList dir pc.normals }

/-- Geometry collaborators called by `convert`; they are Core-library code outside
the given sources, so `convert` is parameterised over them.
`estimateNormalsKeep` is the `EstimateNormals(cloud, params)` overload used when the
cloud already has normals; `estimateNormalsWithDir` is the
`EstimateNormals(cloud, direction, params)` overload. -/
structure Geom where
  cropPointCloud : PointCloud → Vec3 → Vec3 → PointCloud
  voxelDownSample : PointCloud → ℚ → PointCloud
  estimateNormalsKeep : PointCloud → ℚ → PointCloud
  estimateNormalsWithDir : PointCloud → Vec3 → ℚ → PointCloud

/-- Observable result of one `convert` call: the final cloud (what
`WritePointCloud` receives), the `processed` flag, and the data of the
`PrintInfo` line (point count before / after) when it is printed. -/
structure ConvertResult where
  cloud : PointCloud
  processed : Bool
  info : Option (Nat × Nat)
deriving DecidableEq, Repr

/-- Transcription of `convert` (the pipeline part, between load and write):
clip, then voxel-downsample, then estimate-normals, then orient-normals, each
guarded exactly as in the source; `processed` is set by the first three stages
only, and the informational line is produced iff `processed` ends up true. -/
def convert (g : Geom) (o : CmdOptions) (pc : PointCloud) : ConvertResult :=
  let point_num_in := pc.points.length
  let s1 : PointCloud × Bool :=
    if clipOptionSupplied o then
      (g.cropPointCloud pc (minBound o) (maxBound o), true)
    else
      (pc, false)
  let voxel_size : ℚ := o.voxel_sample.getD 0
  let s2 : PointCloud × Bool :=
    if voxel_size > 0 then (g.voxelDownSample s1.1 voxel_size, true) else s1
  let radius : ℚ := o.estimate_normals.getD 0
  let s3 : PointCloud × Bool :=
    if radius > 0 then
      ((if s2.1.hasNormals then g.estimateNormalsKeep s2.1 radius
        else g.estimateNormalsWithDir s2.1 ⟨0, 0, -1⟩ radius), true)
    else
      s2
  let direction : List ℚ := o.orient_normals
  let cloud4 : PointCloud :=
    if direction.length == 3 && s3.1.hasNormals then
      orientNormalsStage (dirOf direction) s3.1
    else
      s3.1
  let point_num_out := cloud4.points.length
  { cloud := cloud4
    processed := s3.2
    info := if s3.2 then some (point_num_in, point_num_out) else none }

/-- The clip stage as a function of the incoming cloud. -/
def clipStage (g : Geom) (o : CmdOptions) (pc : PointCloud) : PointCloud :=
  if clipOptionSupplied o then g.cropPointCloud pc (minBound o) (maxBound o) else pc

/-- The voxel-downsample stage as a function of the incoming cloud. -/
def voxelStage (g : Geom) (o : CmdOptions) (pc : PointCloud) : PointCloud :=
  if o.voxel_sample.getD 0 > 0 then g.voxelDownSample pc (o.voxel_sample.getD 0) else pc

/-- The estimate-normals stage as a function of the incoming cloud: the overload
choice depends on whether the cloud has normals at that moment. -/
def estimateStage (g : Geom) (o : CmdOptions) (pc : PointCloud) : PointCloud :=
  if o.estimate_normals.getD 0 > 0 then
    (if pc.hasNormals then g.estimateNormalsKeep pc (o.estimate_normals.getD 0)
     else g.estimateNormalsWithDir pc ⟨0, 0, -1⟩ (o.estimate_normals.getD 0))
  else
    pc

/-- The orient-normals stage as a function of the incoming cloud. -/
def orientStage (o : CmdOptions) (pc : PointCloud) : PointCloud :=
  if o.orient_normals.length == 3 && pc.hasNormals then
    orientNormalsStage (dirOf o.orient_normals) pc
  else
    pc

/-- State of the cloud when the orient-normals stage inspects it. -/
def cloudBeforeOrient (g : Geom) (o : CmdOptions) (pc : PointCloud) : PointCloud :=
  estimateStage g o (voxelStage g o (clipStage g o pc))

theorem convert_cloud_factor (g : Geom) (o : CmdOptions) (pc : PointCloud) :
    (convert g o pc).cloud = orientStage o (cloudBeforeOrient g o pc) := by
  simp only [convert, cloudBeforeOrient, clipStage, voxelStage, estimateStage,
    orientStage]
  by_cases hc : clipOptionSupplied o = true <;>
    by_cases hv : o.voxel_sample.getD 0 > 0 <;>
      by_cases hr : o.estimate_normals.getD 0 > 0 <;>
        simp [hc, hv, hr]

theorem convert_processed_eq (g : Geom) (o : CmdOptions) (pc : PointCloud) :
    (convert g o pc).processed =
      (clipOptionSupplied o || decide (o.voxel_sample.getD 0 > 0) ||
        decide (o.estimate_normals.getD 0 > 0)) := by
  simp only [convert]
  by_cases hc : clipOptionSupplied o = true <;>
    by_cases hv : o.voxel_sample.getD 0 > 0 <;>
      by_cases hr : o.estimate_normals.getD 0 > 0 <;>
        simp [hc, hv, hr]

theorem convert_info_eq (g : Geom) (o : CmdOptions) (pc : PointCloud) :
    (convert g o pc).info =
      if (convert g o pc).processed then
        some (pc.points.length, (convert g o pc).cloud.points.length)
      else none := by
  simp only [convert]

/-- Componentwise test that a point lies inside the clip box, inclusive on both
sides, as the spec describes `CropPointCloud`. -/
def inBounds (minB maxB p : Vec3) : Bool :=
  decide (minB.x ≤ p.x) && decide (p.x ≤ maxB.x) &&
    decide (minB.y ≤ p.y) && decide (p.y ≤ maxB.y) &&
    decide (minB.z ≤ p.z) && decide (p.z ≤ maxB.z)

/-- Keep the elements of `l` whose positions are marked `true` in `keep`. -/
def filterLockstep (keep : List Bool) (l : List α) : List α :=
  ((keep.zip l).filter (fun q => q.1)).map (fun q => q.2)

/-- Modelled from the spec: `CropPointCloud` is Core-library code not under the
given sources; per the spec it keeps exactly the points whose coordinates lie
within `[min_bound, max_bound]` on all three axes (inclusive), filtering normals
and colors in lockstep. -/
def cropPointCloudSpec (pc : PointCloud) (minB maxB : Vec3) : PointCloud :=
  let keep := pc.points.map (inBounds minB maxB)
  { points := pc.points.filter (inBounds minB maxB)
    normals := filterLockstep keep pc.normals
    colors := filterLockstep keep pc.colors }

/-- Modelled from the spec: the `EstimateNormals(cloud, params)` overload (used
when the cloud already has normals) is Core-library code not under the given
sources; per the spec it computes raw neighborhood normals (abstracted here as
`raw`) and orients each one to agree in sign with the pre-existing normal at the
same position. -/
def estimateNormalsKeepSpec (raw : List Vec3 → ℚ → List Vec3)
    (pc : PointCloud) (r : ℚ) : PointCloud :=
  { pc with
      normals := ((raw pc.points r).zip pc.normals).map
        (fun q => if q.1.dot q.2 < 0 then q.1.negate else q.1) }

/-- Modelled from the spec: the `EstimateNormals(cloud, direction, params)`
overload is Core-library code not under the given sources; per the spec it
computes raw neighborhood normals (abstracted as `raw`) and orients each one
toward the given reference direction. -/
def estimateNormalsWithDirSpec (raw : List Vec3 → ℚ → List Vec3)
    (pc : PointCloud) (d : Vec3) (r : ℚ) : PointCloud :=
  { pc with
      normals := (raw pc.points r).map
        (fun n => if n.dot d < 0 then n.negate else n) }

theorem Vec3.negate_dot (a b : Vec3) : a.negate.dot b = -(a.dot b) := by
  simp only [Vec3.negate, Vec3.dot]
  ring

theorem orientNormalsList_nonneg (d : Vec3) (ns : List Vec3) :
    ∀ n ∈ orientNormalsList d ns, 0 ≤ n.dot d := by
  intro n hn
  simp only [orientNormalsList, List.mem_map] at hn
  obtain ⟨m, _, rfl⟩ := hn
  by_cases h : m.dot d < 0
  · rw [if_pos h, Vec3.negate_dot]
    linarith
  · rw [if_neg h]
    linarith [not_lt.mp h]

theorem estimateNormalsKeepSpec_sign_agree (raw : List Vec3 → ℚ → List Vec3)
    (pc : PointCloud) (r : ℚ) (i : ℕ)
    (hi : i < ((estimateNormalsKeepSpec raw pc r).normals).length) :
    0 ≤ (((estimateNormalsKeepSpec raw pc r).normals).getD i ⟨0, 0, 0⟩).dot
        (pc.normals.getD i ⟨0, 0, 0⟩) := by
  simp only [estimateNormalsKeepSpec, List.length_map, List.length_zip] at hi
  have ha : i < (raw pc.points r).length := lt_of_lt_of_le hi (min_le_left _ _)
  have hb : i < pc.normals.length := lt_of_lt_of_le hi (min_le_right _ _)
  have hlen : i < (((raw pc.points r).zip pc.normals).map
      (fun q => if q.1.dot q.2 < 0 then q.1.negate else q.1)).length := by
    simpa [List.length_map, List.length_zip] using hi
  simp only [estimateNormalsKeepSpec]
  rw [List.getD_eq_getElem _ _ hlen, List.getD_eq_getElem _ _ hb]
  simp only [List.getElem_map, List.getElem_zip]
  by_cases h : ((raw pc.points r)[i]).dot pc.normals[i] < 0
  · rw [if_pos h, Vec3.negate_dot]
    linarith
  · rw [if_neg h]
    linarith [not_lt.mp h]

theorem estimateNormalsWithDirSpec_normals (raw : List Vec3 → ℚ → List Vec3)
    (pc : PointCloud) (d : Vec3) (r : ℚ) :
    (estimateNormalsWithDirSpec raw pc d r).normals =
      orientNormalsList d (raw pc.points r) := rfl

theorem orientNormalsList_forall2 (d : Vec3) (ns : List Vec3) :
    List.Forall₂ (fun m n => m = n ∨ m = n.negate) (orientNormalsList d ns) ns := by
  rw [orientNormalsList, List.forall₂_map_left_iff]
  refine List.forall₂_same.mpr fun n _ => ?_
  by_cases h : n.dot d < 0
  · rw [if_pos h]
    right
    rfl
  · rw [if_neg h]
    left
    rfl

/-- Identity geometry collaborators: every external call returns its input cloud
unchanged.  Used to evaluate the pipeline on concrete inputs. -/
def idGeom : Geom :=
  ⟨fun pc _ _ => pc, fun pc _ => pc, fun pc _ => pc, fun pc _ _ => pc⟩

/-- No options supplied at all. -/
def noOptions : CmdOptions :=
  ⟨none, none, none, none, none, none, none, none, []⟩

/-- Only `--orient_normals 0,0,1` supplied. -/
def orientOnlyOptions : CmdOptions :=
  ⟨none, none, none, none, none, none, none, none, [0, 0, 1]⟩

/-- One point, one normal pointing toward negative z, one color. -/
def sampleCloud : PointCloud :=
  ⟨[⟨1, 2, 3⟩], [⟨0, 0, -5⟩], [⟨1, 0, 0⟩]⟩

/-- Raw normal estimate used for concrete evaluation: every point gets raw
normal `(0, 0, 1)`. -/
def constRaw : List Vec3 → ℚ → List Vec3 :=
  fun pts _ => pts.map fun _ => ⟨0, 0, 1⟩

theorem doubleLowest_le_seven : doubleLowest ≤ 7 := by
  norm_num [doubleLowest, doubleMax]

theorem seven_le_doubleMax : (7 : ℚ) ≤ doubleMax := by
  norm_num [doubleMax]

/-- C1: `convert` applies the stages in the fixed order clip, voxel-downsample,
estimate-normals, orient-normals; each stage runs exactly when its own activation
condition holds (some clip bound supplied; voxel size > 0; radius > 0;
3-component direction and normals present in the cloud the stage receives), a
skipped stage passes its cloud through unchanged, and each of the later stages
is a function of its own option group and incoming cloud only, so skipping one
stage does not change whether any later stage runs. -/
theorem convert_stage_order_and_activation (g : Geom) (o : CmdOptions)
    (pc : PointCloud) :
    (convert g o pc).cloud =
      orientStage o (estimateStage g o (voxelStage g o (clipStage g o pc)))
  ∧ (∀ q, clipStage g o q =
      if clipOptionSupplied o then g.cropPointCloud q (minBound o) (maxBound o)
      else q)
  ∧ (∀ q, voxelStage g o q =
      if o.voxel_sample.getD 0 > 0 then g.voxelDownSample q (o.voxel_sample.getD 0)
      else q)
  ∧ (∀ q, estimateStage g o q =
      if o.estimate_normals.getD 0 > 0 then
        (if q.hasNormals then g.estimateNormalsKeep q (o.estimate_normals.getD 0)
         else g.estimateNormalsWithDir q ⟨0, 0, -1⟩ (o.estimate_normals.getD 0))
      else q)
  ∧ (∀ q, orientStage o q =
      if o.orient_normals.length == 3 && q.hasNormals then
        orientNormalsStage (dirOf o.orient_normals) q
      else q)
  ∧ (∀ o' q, o'.voxel_sample = o.voxel_sample → voxelStage g o' q = voxelStage g o q)
  ∧ (∀ o' q, o'.estimate_normals = o.estimate_normals →
      estimateStage g o' q = estimateStage g o q)
  ∧ (∀ o' q, o'.orient_normals = o.orient_normals → orientStage o' q = orientStage o q) := by
  refine ⟨convert_cloud_factor g o pc, fun q => rfl, fun q => rfl, fun q => rfl,
    fun q => rfl, ?_, ?_, ?_⟩
  · intro o' q h
    simp only [voxelStage, h]
  · intro o' q h
    simp only [estimateStage, h]
  · intro o' q h
    simp only [orientStage, h]

theorem convert_stage_order_witness :
    voxelStage idGeom orientOnlyOptions sampleCloud =
      voxelStage idGeom noOptions sampleCloud :=
  (convert_stage_order_and_activation idGeom noOptions sampleCloud).2.2.2.2.2.1
    orientOnlyOptions sampleCloud rfl

/-- C2: the orient-normals stage runs iff the `--orient_normals` option has
exactly 3 components and the cloud at that point has normals; it negates exactly
the normals whose dot product with the direction is negative, and afterwards
every normal has nonnegative dot product with the direction. -/
theorem orient_stage_runs_iff_and_hemisphere (g : Geom) (o : CmdOptions)
    (pc : PointCloud) :
    ((convert g o pc).cloud =
      if o.orient_normals.length == 3 && (cloudBeforeOrient g o pc).hasNormals then
        orientNormalsStage (dirOf o.orient_normals) (cloudBeforeOrient g o pc)
      else cloudBeforeOrient g o pc)
  ∧ (∀ d ns, orientNormalsList d ns =
      ns.map fun n => if n.dot d < 0 then n.negate else n)
  ∧ (∀ d ns, ∀ n ∈ orientNormalsList d ns, 0 ≤ n.dot d)
  ∧ ((o.orient_normals.length == 3 && (cloudBeforeOrient g o pc).hasNormals) = true →
      ∀ n ∈ (convert g o pc).cloud.normals, 0 ≤ n.dot (dirOf o.orient_normals)) := by
  have hfac := convert_cloud_factor g o pc
  refine ⟨by rw [hfac]; rfl, fun d ns => rfl,
    fun d ns => orientNormalsList_nonneg d ns, ?_⟩
  intro hrun n hn
  rw [hfac] at hn
  simp only [orientStage, hrun, if_pos] at hn
  exact orientNormalsList_nonneg _ _ n hn

theorem orient_stage_witness :
    ((orientOnlyOptions.orient_normals.length == 3 &&
        (cloudBeforeOrient idGeom orientOnlyOptions sampleCloud).hasNormals) = true)
  ∧ 0 ≤ (Vec3.mk 0 0 5).dot (dirOf orientOnlyOptions.orient_normals) :=
  ⟨by decide,
    (orient_stage_runs_iff_and_hemisphere idGeom orientOnlyOptions sampleCloud).2.2.2
      (by decide) (Vec3.mk 0 0 5)
      (by
        have h : (convert idGeom orientOnlyOptions sampleCloud).cloud.normals =
            [⟨0, 0, 5⟩] := by
          rw [convert_cloud_factor]
          norm_num [cloudBeforeOrient, clipStage, voxelStage, estimateStage,
            orientStage, orientOnlyOptions, sampleCloud, clipOptionSupplied,
            idGeom, PointCloud.hasNormals, orientNormalsStage, orientNormalsList,
            dirOf, Vec3.dot, Vec3.negate]
        rw [h]
        exact List.mem_singleton.mpr rfl)⟩

/-- C3: the clip stage is active iff at least one of the six axis-bound options
is supplied; each absent min-side bound defaults to the smallest representable
double and each absent max-side bound to the largest, independently per axis,
so any point with representable coordinates passes an unconstrained axis, and
the (spec-modelled) crop keeps exactly the in-bounds points. -/
theorem clip_activation_and_defaults (g : Geom) (o : CmdOptions) :
    (clipOptionSupplied o =
      (o.clip_x_min.isSome || o.clip_x_max.isSome || o.clip_y_min.isSome ||
        o.clip_y_max.isSome || o.clip_z_min.isSome || o.clip_z_max.isSome))
  ∧ (∀ pc, clipStage g o pc =
      if clipOptionSupplied o then g.cropPointCloud pc (minBound o) (maxBound o)
      else pc)
  ∧ minBound o = ⟨o.clip_x_min.getD doubleLowest, o.clip_y_min.getD doubleLowest,
      o.clip_z_min.getD doubleLowest⟩
  ∧ maxBound o = ⟨o.clip_x_max.getD doubleMax, o.clip_y_max.getD doubleMax,
      o.clip_z_max.getD doubleMax⟩
  ∧ (∀ p pc, p ∈ (cropPointCloudSpec pc (minBound o) (maxBound o)).points ↔
      p ∈ pc.points ∧ inBounds (minBound o) (maxBound o) p = true)
  ∧ (∀ c : ℚ, doubleLowest ≤ c → c ≤ doubleMax →
      (o.clip_x_min = none → (minBound o).x ≤ c)
    ∧ (o.clip_x_max = none → c ≤ (maxBound o).x)
    ∧ (o.clip_y_min = none → (minBound o).y ≤ c)
    ∧ (o.clip_y_max = none → c ≤ (maxBound o).y)
    ∧ (o.clip_z_min = none → (minBound o).z ≤ c)
    ∧ (o.clip_z_max = none → c ≤ (maxBound o).z)) := by
  refine ⟨rfl, fun pc => rfl, rfl, rfl, ?_, ?_⟩
  · intro p pc
    simp [cropPointCloudSpec, List.mem_filter]
  · intro c hlo hhi
    refine ⟨?_, ?_, ?_, ?_, ?_, ?_⟩ <;> intro h <;>
      simp [minBound, maxBound, h, hlo, hhi]

theorem clip_defaults_witness :
    doubleLowest ≤ (7 : ℚ) ∧ (7 : ℚ) ≤ doubleMax ∧ (minBound noOptions).x ≤ 7 :=
  ⟨doubleLowest_le_seven, seven_le_doubleMax,
    ((clip_activation_and_defaults idGeom noOptions).2.2.2.2.2 7
        doubleLowest_le_seven seven_le_doubleMax).1 rfl⟩

/-- C4: when the estimate-normals stage runs (radius > 0) it chooses the
orientation policy by the cloud's state at that moment: with normals present it
calls the overload that keeps sign agreement with the pre-existing normals,
otherwise the overload with the fixed reference direction (0, 0, -1); the
spec-modelled overload contracts give per-point sign agreement, respectively
nonnegative dot product with (0, 0, -1). -/
theorem estimate_stage_policy (g : Geom) (o : CmdOptions) (pc : PointCloud)
    (raw : List Vec3 → ℚ → List Vec3) (r : ℚ) :
    (o.estimate_normals.getD 0 > 0 →
      cloudBeforeOrient g o pc =
        (if (voxelStage g o (clipStage g o pc)).hasNormals then
          g.estimateNormalsKeep (voxelStage g o (clipStage g o pc))
            (o.estimate_normals.getD 0)
         else
          g.estimateNormalsWithDir (voxelStage g o (clipStage g o pc)) ⟨0, 0, -1⟩
            (o.estimate_normals.getD 0)))
  ∧ (∀ i, i < ((estimateNormalsKeepSpec raw pc r).normals).length →
      0 ≤ (((estimateNormalsKeepSpec raw pc r).normals).getD i ⟨0, 0, 0⟩).dot
            (pc.normals.getD i ⟨0, 0, 0⟩))
  ∧ (∀ n ∈ (estimateNormalsWithDirSpec raw pc ⟨0, 0, -1⟩ r).normals,
      0 ≤ n.dot ⟨0, 0, -1⟩) := by
  refine ⟨?_, fun i hi => estimateNormalsKeepSpec_sign_agree raw pc r i hi, ?_⟩
  · intro hr
    simp only [cloudBeforeOrient, estimateStage, hr, if_pos]
  · intro n hn
    rw [estimateNormalsWithDirSpec_normals] at hn
    exact orientNormalsList_nonneg _ _ n hn

theorem estimate_stage_witness :
    0 ≤ (Vec3.mk 0 0 (-1)).dot ⟨0, 0, -1⟩ :=
  (estimate_stage_policy idGeom noOptions sampleCloud constRaw 1).2.2
    (Vec3.mk 0 0 (-1))
    (by
      have h : (estimateNormalsWithDirSpec constRaw sampleCloud ⟨0, 0, -1⟩ 1).normals =
          [⟨0, 0, -1⟩] := by
        norm_num [estimateNormalsWithDirSpec, constRaw, sampleCloud, Vec3.dot,
          Vec3.negate]
      rw [h]
      exact List.mem_singleton.mpr rfl)

/-- C5: the `processed` flag is set exactly by the clip, voxel-downsample and
estimate-normals stages (not by orient-normals), the informational line is
produced iff the flag is set, and a run where only orient-normals could execute
prints no informational line. -/
theorem processed_flag_and_info (g : Geom) (o : CmdOptions) (pc : PointCloud) :
    ((convert g o pc).processed =
      (clipOptionSupplied o || decide (o.voxel_sample.getD 0 > 0) ||
        decide (o.estimate_normals.getD 0 > 0)))
  ∧ ((convert g o pc).info =
      if (convert g o pc).processed then
        some (pc.points.length, (convert g o pc).cloud.points.length)
      else none)
  ∧ (clipOptionSupplied o = false → o.voxel_sample.getD 0 ≤ 0 →
      o.estimate_normals.getD 0 ≤ 0 → (convert g o pc).info = none) := by
  refine ⟨convert_processed_eq g o pc, convert_info_eq g o pc, ?_⟩
  intro hc hv hr
  rw [convert_info_eq g o pc, convert_processed_eq g o pc, hc]
  simp [not_lt.mpr hv, not_lt.mpr hr]

theorem processed_flag_witness :
    (convert idGeom orientOnlyOptions sampleCloud).info = none :=
  (processed_flag_and_info idGeom orientOnlyOptions sampleCloud).2.2
    rfl (by decide) (by decide)

/-- C10: the orient-normals stage modifies only the normals: points and colors
(and hence the point count) are untouched, the normal count is preserved, and
each resulting normal is the original or its negation; at the `convert` level
the points and colors after the orient stage are those before it. -/
theorem orient_stage_frame_effect (d : Vec3) (pc : PointCloud) (g : Geom)
    (o : CmdOptions) :
    (orientNormalsStage d pc).points = pc.points
  ∧ (orientNormalsStage d pc).colors = pc.colors
  ∧ (orientNormalsStage d pc).normals.length = pc.normals.length
  ∧ List.Forall₂ (fun m n => m = n ∨ m = n.negate)
      (orientNormalsStage d pc).normals pc.normals
  ∧ (convert g o pc).cloud.points = (cloudBeforeOrient g o pc).points
  ∧ (convert g o pc).cloud.colors = (cloudBeforeOrient g o pc).colors := by
  have hfac := convert_cloud_factor g o pc
  refine ⟨rfl, rfl, List.length_map _ _, orientNormalsList_forall2 d pc.normals,
    ?_, ?_⟩ <;>
    · rw [hfac]
      unfold orientStage
      split <;> rfl

/-- Filesystem collaborator of `main`: existence tests and directory listing
(`FileExists`, `DirectoryExists`, `ListFilesInDirectory`). -/
structure FS where
  fileExists : String → Bool
  dirExists : String → Bool
  listFiles : String → List String

/-- Observable trace of one `main` run: process exit code, whether usage or the
error line was printed, the directory-hierarchy creation (performed before any
conversion), and the `convert` invocations in order as (input, output) paths. -/
structure MainTrace where
  exitCode : Nat
  helpPrinted : Bool
  errorPrinted : Bool
  madeDirHierarchy : Option String
  conversions : List (String × String)
deriving DecidableEq, Repr

/-- Transcription of the help guard of `main`: fewer than two positional
arguments, or `--help`, or `-h` anywhere on the command line. -/
def helpRequested (argv : List String) : Bool :=
  decide (argv.length < 3) || argv.contains "--help" || argv.contains "-h"

/-- Transcription of `main` (lines 140-163 of the source) over the filesystem
collaborator and the two path helpers `GetRegularizedDirectoryName`
(`reg`) and `GetFileNameWithoutDirectory` (`base`), which are Core-library
string functions kept abstract here.  The verbosity side effect carries no
decision logic and is omitted from the trace. -/
def mainRun (fs : FS) (reg base : String → String) (argv : List String) :
    MainTrace :=
  if helpRequested argv then
    ⟨0, true, false, none, []⟩
  else if fs.fileExists (argv.getD 1 "") then
    ⟨1, false, false, none, [(argv.getD 1 "", argv.getD 2 "")]⟩
  else if fs.dirExists (argv.getD 1 "") then
    ⟨1, false, false, some (argv.getD 2 ""),
      (fs.listFiles (argv.getD 1 "")).map
        (fun fn => (fn, reg (argv.getD 2 "") ++ base fn))⟩
  else
    ⟨1, false, true, none, []⟩

/-- Resolved pipeline configuration in the spec's words (§3): one optional group
per stage, the clip group present iff some axis bound was supplied, voxel size
and radius present iff positive, orient direction present iff it has exactly 3
components. -/
structure PipelineConfig where
  clip : Option (Vec3 × Vec3)
  voxelSize : Option ℚ
  normalRadius : Option ℚ
  orientDirection : Option Vec3
deriving Repr

/-- Derivation of the `PipelineConfig` from the parsed options, following the
spec's resolution rules (§4.1). -/
def resolveConfig (o : CmdOptions) : PipelineConfig :=
  ⟨if clipOptionSupplied o then some (minBound o, maxBound o) else none,
    if o.voxel_sample.getD 0 > 0 then some (o.voxel_sample.getD 0) else none,
    if o.estimate_normals.getD 0 > 0 then some (o.estimate_normals.getD 0) else none,
    if o.orient_normals.length == 3 then some (dirOf o.orient_normals) else none⟩

/-- Pipeline over a resolved configuration, following the spec's words (§4.2):
each stage runs iff its group is present, in the fixed order. -/
def runPipeline (g : Geom) (cfg : PipelineConfig) (pc : PointCloud) :
    ConvertResult :=
  let s1 : PointCloud × Bool :=
    match cfg.clip with
    | some b => (g.cropPointCloud pc b.1 b.2, true)
    | none => (pc, false)
  let s2 : PointCloud × Bool :=
    match cfg.voxelSize with
    | some v => (g.voxelDownSample s1.1 v, true)
    | none => s1
  let s3 : PointCloud × Bool :=
    match cfg.normalRadius with
    | some r =>
        ((if s2.1.hasNormals then g.estimateNormalsKeep s2.1 r
          else g.estimateNormalsWithDir s2.1 ⟨0, 0, -1⟩ r), true)
    | none => s2
  let cloud4 : PointCloud :=
    match cfg.orientDirection with
    | some d => if s3.1.hasNormals then orientNormalsStage d s3.1 else s3.1
    | none => s3.1
  { cloud := cloud4
    processed := s3.2
    info := if s3.2 then some (pc.points.length, cloud4.points.length) else none }

theorem mainRun_exitCode (fs : FS) (reg base : String → String)
    (argv : List String) :
    (mainRun fs reg base argv).exitCode = if helpRequested argv then 0 else 1 := by
  unfold mainRun
  by_cases hh : helpRequested argv = true
  · simp [hh]
  · simp only [Bool.not_eq_true] at hh
    cases hf : fs.fileExists (argv.getD 1 "") <;>
      cases hd : fs.dirExists (argv.getD 1 "") <;>
        simp [hh, hf, hd]

/-- Sample filesystem where every path is a directory listing two files. -/
def sampleFS : FS :=
  ⟨fun _ => false, fun _ => true, fun _ => ["d/a.ply", "d/b.ply"]⟩

/-- Sample filesystem where no path exists. -/
def emptyFS : FS :=
  ⟨fun _ => false, fun _ => false, fun _ => []⟩

/-- Sample regularizer: append a path separator. -/
def sampleReg : String → String := fun s => s ++ "/"

/-- Sample basename helper (identity, sufficient for the abstract driver). -/
def sampleBase : String → String := fun s => s

/-- Sample command line with two positional arguments. -/
def sampleArgv : List String := ["ConvertPointCloud", "d", "out"]

/-- Sample command line asking for help. -/
def helpArgv : List String := ["ConvertPointCloud", "--help"]

/-- C6: the exit status is 0 exactly on the help/no-op paths (fewer than two
positional arguments, or `--help`, or `-h`), which print usage and do no work;
every other path, including a fully successful conversion, exits with 1. -/
theorem exit_status_zero_iff_help (fs : FS) (reg base : String → String)
    (argv : List String) :
    ((mainRun fs reg base argv).exitCode = 0 ↔ helpRequested argv = true)
  ∧ (helpRequested argv =
      (decide (argv.length < 3) || argv.contains "--help" || argv.contains "-h"))
  ∧ (helpRequested argv = true →
      mainRun fs reg base argv = ⟨0, true, false, none, []⟩)
  ∧ (helpRequested argv = false → (mainRun fs reg base argv).exitCode = 1) := by
  refine ⟨?_, rfl, ?_, ?_⟩
  · rw [mainRun_exitCode]
    by_cases hh : helpRequested argv = true <;> simp [hh]
  · intro hh
    simp [mainRun, hh]
  · intro hh
    rw [mainRun_exitCode, hh]
    rfl

theorem exit_status_witness :
    (mainRun sampleFS sampleReg sampleBase helpArgv).exitCode = 0
  ∧ (mainRun sampleFS sampleReg sampleBase sampleArgv).exitCode = 1 :=
  ⟨(exit_status_zero_iff_help sampleFS sampleReg sampleBase helpArgv).1.mpr
      (by decide),
    (exit_status_zero_iff_help sampleFS sampleReg sampleBase sampleArgv).2.2.2
      (by decide)⟩

/-- C7: for an existing input directory the driver records the output-directory
hierarchy creation (before any conversion, per the trace layout), and invokes
the conversion once per enumerated entry, in enumeration order, with output path
`reg outputPath ++ base entry` (normalized output directory plus the entry's
file name). -/
theorem directory_batch_behavior (fs : FS) (reg base : String → String)
    (argv : List String) (hh : helpRequested argv = false)
    (hf : fs.fileExists (argv.getD 1 "") = false)
    (hd : fs.dirExists (argv.getD 1 "") = true) :
    mainRun fs reg base argv =
      ⟨1, false, false, some (argv.getD 2 ""),
        (fs.listFiles (argv.getD 1 "")).map
          (fun fn => (fn, reg (argv.getD 2 "") ++ base fn))⟩ := by
  have hf' := hf
  have hd' := hd
  simp only [List.getD_eq_getElem?_getD] at hf' hd'
  simp [mainRun, hh, hf', hd']

theorem directory_batch_witness :
    mainRun sampleFS sampleReg sampleBase sampleArgv =
      ⟨1, false, false, some (sampleArgv.getD 2 ""),
        (sampleFS.listFiles (sampleArgv.getD 1 "")).map
          (fun fn => (fn, sampleReg (sampleArgv.getD 2 "") ++ sampleBase fn))⟩ :=
  directory_batch_behavior sampleFS sampleReg sampleBase sampleArgv
    (by decide) rfl rfl

/-- C8: when the input path is neither an existing file nor an existing
directory, the driver prints the error line and performs no work: no conversion
is invoked (so nothing is loaded, processed or written) and no directory is
created, and the process exits with 1. -/
theorem missing_input_reports_error (fs : FS) (reg base : String → String)
    (argv : List String) (hh : helpRequested argv = false)
    (hf : fs.fileExists (argv.getD 1 "") = false)
    (hd : fs.dirExists (argv.getD 1 "") = false) :
    mainRun fs reg base argv = ⟨1, false, true, none, []⟩ := by
  have hf' := hf
  have hd' := hd
  simp only [List.getD_eq_getElem?_getD] at hf' hd'
  simp [mainRun, hh, hf', hd']

theorem missing_input_witness :
    mainRun emptyFS sampleReg sampleBase sampleArgv = ⟨1, false, true, none, []⟩ :=
  missing_input_reports_error emptyFS sampleReg sampleBase sampleArgv
    (by decide) rfl rfl

/-- C9: the behavior of one conversion is a function of a single up-front
resolution of the options: `convert` on the parsed options coincides with the
spec's `runPipeline` over `resolveConfig`, and therefore a directory batch maps
every file through the same resolved configuration. -/
theorem convert_refines_resolved_config (g : Geom) (o : CmdOptions) :
    (∀ pc, convert g o pc = runPipeline g (resolveConfig o) pc)
  ∧ (∀ clouds : List PointCloud,
      clouds.map (convert g o) = clouds.map (runPipeline g (resolveConfig o))) := by
  have h : ∀ pc, convert g o pc = runPipeline g (resolveConfig o) pc := by
    intro pc
    simp only [convert, runPipeline, resolveConfig]
    by_cases hc : clipOptionSupplied o = true <;>
      by_cases hv : o.voxel_sample.getD 0 > 0 <;>
        by_cases hr : o.estimate_normals.getD 0 > 0 <;>
          by_cases ho : (o.orient_normals.length == 3) = true <;>
            simp [hc, hv, hr, ho]
  exact ⟨h, fun clouds => List.map_congr_left fun pc _ => h pc⟩

end ConvertPC
